import Mathlib

/-!
Verification of the bilby_pipe job-graph engine (`bilby_pipe/main.py`).

The development shallowly embeds the configuration-normalization and
DAG-construction code of `main.py`: the detector-input canonicalization of
`Input._convert_detectors_input`, the X509 credential resolution of
`MainInput.x509userproxy`, the `n_injection`/`queue` interaction of
`MainInput`, and the job enumeration and graph wiring of the `Dag` class
(`create_generation_job`, `analysis_jobs_inputs`, `_create_analysis_job`).

Python strings are embedded as `String`, Python lists as `List`, dynamically
typed resource values as `PyVal`, raised exceptions as `Except PyError`.
Python's stable `list.sort()` over a total order is embedded by insertion
sort (`pySort`): over a total order, ties arise only between equal elements,
so every sorting algorithm produces the same output list.  `str.split(' ')`,
`str.upper()` and `os.path.basename` are embedded character by character so
that every definition evaluates by kernel reduction.
-/

/-- Python exception kinds raised on the embedded code paths:
`ValueError` and `AttributeError` (no other exception class is raised by
the embedded fragment; in particular `main.py` defines no
`GraphConstructionError` and no `EmptySetError`). -/
inductive PyError where
  | valueError
  | attributeError
deriving DecidableEq, Repr

/-- Lexicographic comparison of character lists by code point, the order
Python uses to compare strings. -/
def charListLe : List Char → List Char → Bool
  | [], _ => true
  | _ :: _, [] => false
  | a :: as, b :: bs => if a < b then true else if b < a then false else charListLe as bs

/-- Python string comparison `a <= b` (lexicographic by code point). -/
def strLe (a b : String) : Bool := charListLe a.data b.data

/-- Insert a string into a list sorted by `strLe`, keeping existing order on
ties (stability). -/
def insertSorted (a : String) : List String → List String
  | [] => [a]
  | b :: bs => if strLe a b then a :: b :: bs else b :: insertSorted a bs

/-- Embedding of Python `det_list.sort()`: a stable sort by `strLe`. -/
def pySort (l : List String) : List String := l.foldr insertSorted []

/-- Helper for `splitStringBySpace`, walking the character list and cutting
at every single space, keeping empty fragments exactly as Python does. -/
def splitCharsAux : List Char → List Char → List String
  | [], acc => [String.mk acc.reverse]
  | c :: cs, acc =>
    if c = ' ' then String.mk acc.reverse :: splitCharsAux cs []
    else splitCharsAux cs (c :: acc)

/-- Embedding of `Input._split_string_by_space`: Python `string.split(' ')`,
which cuts at every single space character and keeps empty fragments. -/
def splitStringBySpace (s : String) : List String := splitCharsAux s.data []

/-- Embedding of Python `str.upper()` for the ASCII strings handled here. -/
def upperStr (s : String) : String := String.mk (s.data.map Char.toUpper)

/-- Raw `detectors` value accepted by `Input._convert_detectors_input`:
either a string or a list of strings (any other type raises `ValueError`
in the source and is outside this embedding). -/
inductive DetectorsInput where
  | str (s : String)
  | list (l : List String)
deriving DecidableEq, Repr

/-- The `det_list` computed by the branches of
`Input._convert_detectors_input` before sorting: a string is split on
spaces, a single-element list has its only element split on spaces, and any
other list is taken as is. -/
def detTokens : DetectorsInput → List String
  | .str s => splitStringBySpace s
  | .list [d] => splitStringBySpace d
  | .list l => l

/-- Embedding of `Input._convert_detectors_input`: compute `det_list`,
sort it in place, then uppercase every element (in that order). -/
def convertDetectorsInput (detectors : DetectorsInput) : List String :=
  (pySort (detTokens detectors)).map upperStr

/-- The default `Input.known_detectors` list from `main.py`. -/
def knownDetectorsDefault : List String := ["H1", "L1", "V1"]

/-- Embedding of `Input._check_detectors_against_known_detectors`: raise
`ValueError` when some element is not a known detector. -/
def checkDetectorsAgainstKnown (dets known : List String) : Except PyError Unit :=
  if dets.all (fun d => known.contains d) then Except.ok () else Except.error PyError.valueError

/-- Embedding of the `Input.detectors` setter: convert the raw input, then
check it against the known-detector list; on success the `_detectors`
attribute holds the converted list. -/
def setDetectors (input : DetectorsInput) (known : List String) : Except PyError (List String) :=
  match checkDetectorsAgainstKnown (convertDetectorsInput input) known with
  | Except.ok _ => Except.ok (convertDetectorsInput input)
  | Except.error e => Except.error e

/-- Normalization as the specification describes it (for comparison with
the code): uppercase every token, sort lexicographically, remove exact
duplicates. -/
def specNormalize (tokens : List String) : List String :=
  (pySort (tokens.map upperStr)).eraseDups

/-- Raw `MainInput.sampler` value: the parser may hand the `Dag` either a
list of strings (`--sampler a b`) or a bare string (the unparsed default). -/
inductive SamplerInput where
  | str (s : String)
  | list (l : List String)
deriving DecidableEq, Repr

/-- The default value of the `--sampler` option in `create_parser`:
the bare string `dynesty`, not a one-element list. -/
def parserDefaultSampler : SamplerInput := SamplerInput.str "dynesty"

/-- What Python iteration over `self.inputs.sampler` yields inside
`itertools.product`: the elements of a list, or the individual characters
of a string (each a one-character string). -/
def samplerElements : SamplerInput → List String
  | .str s => s.data.map String.singleton
  | .list l => l

/-- The `detectors_list` built by `Dag.analysis_jobs_inputs`: the full
detector list first, then, when `coherence_test` is set, one singleton list
per detector in order. -/
def detectorsList (detectors : List String) (coherenceTest : Bool) : List (List String) :=
  [detectors] ++ (if coherenceTest then detectors.map (fun d => [d]) else [])

/-- Embedding of `Dag.analysis_jobs_inputs`: the cross product
`itertools.product(detectors_list, sampler_list)`, detector subsets outer,
sampler elements inner. -/
def analysisJobsInputs (detectors : List String) (coherenceTest : Bool)
    (sampler : SamplerInput) : List (List String × String) :=
  (detectorsList detectors coherenceTest).flatMap
    (fun ds => (samplerElements sampler).map (fun sa => (ds, sa)))

/-- Dynamically typed Python value appearing in the resource-request slots
of `Dag` and `pycondor.Job` (string, int, or the Python value `None`). -/
inductive PyVal where
  | str (s : String)
  | int (n : Int)
  | none
deriving DecidableEq, Repr

/-- The fields of `MainInput` that the `Dag` class reads while building
jobs. -/
structure DagInputs where
  label : String
  accounting : String
  queue : Int
  detectors : List String
  sampler : SamplerInput
  coherenceTest : Bool
deriving DecidableEq, Repr

/-- The observable content of a `pycondor.Job` created by `Dag`: its name,
executable, queue count, resource requests and parent names. -/
structure Job where
  name : String
  executable : String
  queue : Int
  request_memory : PyVal
  request_disk : PyVal
  request_cpus : PyVal
  parents : List String
deriving DecidableEq, Repr

/-- The mutable state of a `Dag` object: its stored resource requests, the
`generation_job` attribute (absent until `create_generation_job` runs) and
the list of jobs added to the underlying `pycondor.Dagman`. -/
structure DagState where
  request_memory : PyVal
  request_disk : PyVal
  request_cpus : PyVal
  generation_job : Option Job
  nodes : List Job
deriving DecidableEq, Repr

/-- Embedding of the assignments at the top of `Dag.__init__`.  The source
reads `self.request_cpus = request_disk` (main.py line 341), so the stored
cpu request is the disk request, and the `request_cpus` argument is
dropped. -/
def dagInit (request_memory request_disk request_cpus : PyVal) : DagState :=
  { request_memory := request_memory
    request_disk := request_disk
    request_cpus := request_disk
    generation_job := Option.none
    nodes := [] }

/-- Executable name resolved for the generation job. -/
def generationExecutable : String := "bilby_pipe_generation"

/-- Executable name resolved for analysis jobs. -/
def analysisExecutable : String := "bilby_pipe_analysis"

/-- The `pycondor.Job` built by `Dag.create_generation_job`: name
`label_generation`, the stored resource requests, the input queue count and
no parent. -/
def generationJobOf (inputs : DagInputs) (s : DagState) : Job :=
  { name := inputs.label ++ "_generation"
    executable := generationExecutable
    queue := inputs.queue
    request_memory := s.request_memory
    request_disk := s.request_disk
    request_cpus := s.request_cpus
    parents := [] }

/-- Embedding of `Dag.create_generation_job`: build the generation job, add
it to the dag and store it in `self.generation_job`.  The source contains
no duplicate check, so the operation never fails; a repeated call simply
adds a second generation job and repoints `self.generation_job`. -/
def createGenerationJob (inputs : DagInputs) (s : DagState) : Except PyError DagState :=
  Except.ok { s with generation_job := some (generationJobOf inputs s)
                     nodes := s.nodes ++ [generationJobOf inputs s] }

/-- The `run_label` of `Dag._create_analysis_job`:
`'_'.join([label, ''.join(detectors), sampler])`. -/
def runLabel (inputs : DagInputs) (detectors : List String) (sampler : String) : String :=
  inputs.label ++ "_" ++ String.join detectors ++ "_" ++ sampler

/-- The `pycondor.Job` built by `Dag._create_analysis_job` for one
`(detectors, sampler)` pair, with the generation job as its one parent. -/
def analysisJobOf (inputs : DagInputs) (s : DagState) (genName : String)
    (detectors : List String) (sampler : String) : Job :=
  { name := runLabel inputs detectors sampler
    executable := analysisExecutable
    queue := inputs.queue
    request_memory := s.request_memory
    request_disk := s.request_disk
    request_cpus := s.request_cpus
    parents := [genName] }

/-- Embedding of `Dag._create_analysis_job`: reading `self.generation_job`
raises `AttributeError` when `create_generation_job` has not run;
otherwise the new job is added to the dag with
`job.add_parent(self.generation_job)`. -/
def createAnalysisJob (inputs : DagInputs) (detectors : List String) (sampler : String)
    (s : DagState) : Except PyError DagState :=
  match s.generation_job with
  | Option.none => Except.error PyError.attributeError
  | some gen =>
      Except.ok { s with nodes := s.nodes ++ [analysisJobOf inputs s gen.name detectors sampler] }

/-- Embedding of `Dag.create_analysis_jobs`: create one analysis job per
entry of `analysis_jobs_inputs`, in order. -/
def createAnalysisJobs (inputs : DagInputs) (s : DagState) : Except PyError DagState :=
  (analysisJobsInputs inputs.detectors inputs.coherenceTest inputs.sampler).foldlM
    (fun st p => createAnalysisJob inputs p.1 p.2 st) s

/-- The graph-building part of `Dag.__init__`: initialize the state, create
the generation job, then all analysis jobs (`check_injection`,
`create_postprocessing_jobs` and `build_submit` perform no graph
mutation relevant here). -/
def buildDag (inputs : DagInputs) (request_memory request_disk request_cpus : PyVal) :
    Except PyError DagState :=
  (createGenerationJob inputs (dagInit request_memory request_disk request_cpus)).bind
    (fun s => createAnalysisJobs inputs s)

/-- The dependency edges of the built graph, as `(parent name, child name)`
pairs read off the jobs' parent lists. -/
def dagNameEdges (s : DagState) : List (String × String) :=
  s.nodes.flatMap (fun j => j.parents.map (fun p => (p, j.name)))

/-- Nonempty path in an edge list. -/
inductive Reaches (E : List (String × String)) : String → String → Prop
  | single : ∀ {a b : String}, (a, b) ∈ E → Reaches E a b
  | cons : ∀ {a b c : String}, (a, b) ∈ E → Reaches E b c → Reaches E a c

/-- An edge list is acyclic when no node reaches itself by a nonempty
path. -/
def Acyclic (E : List (String × String)) : Prop := ∀ a : String, ¬ Reaches E a a

/-- The number of generation jobs in the dag a construction step returned,
or `none` when the step raised. -/
def genNodeCount (e : Except PyError DagState) : Option Nat :=
  e.toOption.map (fun s => (s.nodes.filter (fun j => j.executable == generationExecutable)).length)

/-- The `(memory, disk, cpus)` resource-request triples of all jobs of the
dag a construction step returned, or `none` when the step raised. -/
def jobResources (e : Except PyError DagState) : Option (List (PyVal × PyVal × PyVal)) :=
  e.toOption.map (fun s => s.nodes.map (fun j => (j.request_memory, j.request_disk, j.request_cpus)))

/-- Warnings logged by the `MainInput.x509userproxy` setter. -/
inductive CredWarning where
  | proxyEnvNotAFile
  | proxyEnvUnset
deriving DecidableEq, Repr

/-- Helper for `pyBasename`: keep the characters after the last slash. -/
def basenameAux : List Char → List Char → List Char
  | [], acc => acc.reverse
  | c :: cs, acc => if c = '/' then basenameAux cs [] else basenameAux cs (c :: acc)

/-- Embedding of `os.path.basename` for POSIX paths. -/
def pyBasename (p : String) : String := String.mk (basenameAux p.data [])

/-- Embedding of the `MainInput.x509userproxy` setter.  The result carries
the `_x509userproxy` attribute state (outer `Option.none` when the
attribute was never assigned) together with the warnings logged.  With no
explicit path: an unset `X509_USER_PROXY` environment variable
(`KeyError`) logs a warning and assigns `None`; a set variable whose file
is missing (`FileNotFoundError` from `shutil.copyfile`) logs a warning and
assigns nothing; a set variable whose file exists assigns the hidden copy
path.  An explicit path must exist, else `ValueError`. -/
def x509Setter (x509userproxy : Option String) (envProxy : Option String)
    (fileExists : String → Bool) (outdir : String) :
    Except PyError (Option (Option String) × List CredWarning) :=
  match x509userproxy with
  | Option.none =>
    match envProxy with
    | some certPath =>
        let newCertPath := outdir ++ "/." ++ pyBasename certPath
        if fileExists certPath then Except.ok (some (some newCertPath), [])
        else Except.ok (Option.none, [CredWarning.proxyEnvNotAFile])
    | Option.none => Except.ok (some Option.none, [CredWarning.proxyEnvUnset])
  | some p =>
      if fileExists p then Except.ok (some (some p), [])
      else Except.error PyError.valueError

/-- Embedding of the `MainInput.x509userproxy` getter: reading the
attribute when it was never assigned raises `AttributeError`, which the
getter converts to a `ValueError`. -/
def x509Getter (attr : Option (Option String)) : Except PyError (Option String) :=
  match attr with
  | Option.none => Except.error PyError.valueError
  | some v => Except.ok v

/-- The part of the `MainInput` state touched by the `n_injection` setter:
the `queue` attribute and the `_n_injection` attribute (absent unless
assigned). -/
structure MainInputState where
  queue : Int
  n_injection_attr : Option Int
deriving DecidableEq, Repr

/-- Embedding of the `MainInput.n_injection` setter: a non-`None` value
overwrites `self.queue`; the `_n_injection` attribute is never assigned. -/
def setNInjection (n_injection : Option Int) (s : MainInputState) : MainInputState :=
  match n_injection with
  | some n => { s with queue := n }
  | Option.none => s

/-- The `queue`/`n_injection` assignments of `MainInput.__init__`:
`self.queue = args.queue` followed by `self.n_injection = args.n_injection`. -/
def mainInputQueueState (argsQueue : Int) (argsNInjection : Option Int) : MainInputState :=
  setNInjection argsNInjection { queue := argsQueue, n_injection_attr := Option.none }

/-- Embedding of the `MainInput.n_injection` getter: it returns
`self._n_injection`, raising `AttributeError` when that attribute was
never assigned. -/
def getNInjection (s : MainInputState) : Except PyError Int :=
  match s.n_injection_attr with
  | Option.none => Except.error PyError.attributeError
  | some n => Except.ok n

/-- Concrete inputs used by the witness theorems: the parser defaults with
an explicit one-element sampler list. -/
def testInputs : DagInputs :=
  { label := "LABEL"
    accounting := "ligo"
    queue := 1
    detectors := ["H1", "L1"]
    sampler := SamplerInput.list ["dynesty"]
    coherenceTest := false }

/-- The generation job `buildDag testInputs PyVal.none PyVal.none PyVal.none`
creates. -/
def testGenJob : Job :=
  { name := "LABEL_generation"
    executable := generationExecutable
    queue := 1
    request_memory := PyVal.none
    request_disk := PyVal.none
    request_cpus := PyVal.none
    parents := [] }

/-- The analysis job `buildDag testInputs PyVal.none PyVal.none PyVal.none`
creates. -/
def testAnalysisJob : Job :=
  { name := "LABEL_H1L1_dynesty"
    executable := analysisExecutable
    queue := 1
    request_memory := PyVal.none
    request_disk := PyVal.none
    request_cpus := PyVal.none
    parents := ["LABEL_generation"] }

/-- The dag state `buildDag testInputs PyVal.none PyVal.none PyVal.none`
returns. -/
def testDagState : DagState :=
  { request_memory := PyVal.none
    request_disk := PyVal.none
    request_cpus := PyVal.none
    generation_job := some testGenJob
    nodes := [testGenJob, testAnalysisJob] }

/-- The dag state after `createGenerationJob testInputs` on a fresh state. -/
def testDagStateGen : DagState :=
  { request_memory := PyVal.none
    request_disk := PyVal.none
    request_cpus := PyVal.none
    generation_job := some testGenJob
    nodes := [testGenJob] }

/-! Helper lemmas. -/

lemma insertSorted_perm (a : String) (l : List String) :
    (insertSorted a l).Perm (a :: l) := by
  induction l with
  | nil => exact List.Perm.refl _
  | cons b bs ih =>
      by_cases h : strLe a b
      · simp [insertSorted, h]
      · simp only [insertSorted, h, if_neg, Bool.false_eq_true, not_false_eq_true, ite_false]
        exact (List.Perm.cons b ih).trans (List.Perm.swap a b bs)

lemma pySort_perm (l : List String) : (pySort l).Perm l := by
  induction l with
  | nil => exact List.Perm.refl _
  | cons a t ih => exact (insertSorted_perm a (pySort t)).trans (List.Perm.cons a ih)

lemma mem_pySort {a : String} {l : List String} (h : a ∈ pySort l) : a ∈ l :=
  (pySort_perm l).mem_iff.mp h

lemma upperStr_of_known {d : String} (hd : d ∈ knownDetectorsDefault) : upperStr d = d := by
  simp only [knownDetectorsDefault, List.mem_cons, List.mem_singleton,
    List.not_mem_nil, or_false] at hd
  rcases hd with rfl | rfl | rfl <;> decide

lemma map_upperStr_of_known {l : List String} (h : ∀ d ∈ l, d ∈ knownDetectorsDefault) :
    l.map upperStr = l := by
  have h2 : ∀ d ∈ l, upperStr d = d := fun d hd => upperStr_of_known (h d hd)
  calc l.map upperStr = l.map id := List.map_congr_left h2
    _ = l := List.map_id l

lemma length_flatMap_const {α β : Type} (l : List α) (f : α → List β) (m : Nat)
    (h : ∀ a ∈ l, (f a).length = m) : (l.flatMap f).length = l.length * m := by
  induction l with
  | nil => simp
  | cons a t ih =>
      have ha := h a (List.mem_cons_self a t)
      have ht := ih (fun x hx => h x (List.mem_cons_of_mem a hx))
      simp only [List.flatMap_cons, List.length_append, ha, ht, List.length_cons]
      ring

lemma reaches_source {E : List (String × String)} {g : String}
    (h1 : ∀ e ∈ E, e.1 = g) {a b : String} (h : Reaches E a b) : a = g := by
  cases h with
  | single hm => exact h1 _ hm
  | cons hm _ => exact h1 _ hm

lemma star_acyclic {E : List (String × String)} {g : String}
    (h1 : ∀ e ∈ E, e.1 = g) (h2 : ∀ e ∈ E, e.2 ≠ g) : Acyclic E := by
  intro a h
  cases h with
  | single hm => exact h2 _ hm (h1 _ hm)
  | cons hm hr => exact h2 _ hm (reaches_source h1 hr)

lemma run_label_ne_generation (label djoin sa : String) :
    label ++ "_" ++ djoin ++ "_" ++ sa ≠ label ++ "_generation" := by
  intro h
  have hd := congrArg String.data h
  simp only [String.data_append] at hd
  simp only [List.append_assoc, List.singleton_append] at hd
  have h3 := List.append_cancel_left hd
  have h4 : djoin.data ++ '_' :: sa.data = ['g', 'e', 'n', 'e', 'r', 'a', 't', 'i', 'o', 'n'] :=
    List.cons_injective h3
  have hmem : '_' ∈ djoin.data ++ '_' :: sa.data :=
    List.mem_append_right _ (List.mem_cons_self _ _)
  rw [h4] at hmem
  exact absurd hmem (by decide)

lemma createAnalysisJobs_fold (inputs : DagInputs) (gen : Job)
    (l : List (List String × String)) :
    ∀ s : DagState, s.generation_job = some gen →
      l.foldlM (fun st p => createAnalysisJob inputs p.1 p.2 st) s
        = Except.ok { s with
            nodes := s.nodes ++ l.map (fun p => analysisJobOf inputs s gen.name p.1 p.2) } := by
  induction l with
  | nil =>
      intro s _
      simp only [List.foldlM_nil, List.map_nil, List.append_nil]
      rfl
  | cons p t ih =>
      intro s hg
      have step :
          (p :: t).foldlM (fun st q => createAnalysisJob inputs q.1 q.2 st) s
            = t.foldlM (fun st q => createAnalysisJob inputs q.1 q.2 st)
                { s with nodes := s.nodes ++ [analysisJobOf inputs s gen.name p.1 p.2] } := by
        rw [List.foldlM_cons]
        simp only [createAnalysisJob, hg]
        rfl
      rw [step, ih { s with nodes := s.nodes ++ [analysisJobOf inputs s gen.name p.1 p.2] } hg]
      simp [analysisJobOf, List.append_assoc]

lemma buildDag_eq (inputs : DagInputs) (rm rd rc : PyVal) :
    buildDag inputs rm rd rc = Except.ok
      { request_memory := rm
        request_disk := rd
        request_cpus := rd
        generation_job := some (generationJobOf inputs (dagInit rm rd rc))
        nodes := generationJobOf inputs (dagInit rm rd rc) ::
          (analysisJobsInputs inputs.detectors inputs.coherenceTest inputs.sampler).map
            (fun p => analysisJobOf inputs (dagInit rm rd rc)
              (generationJobOf inputs (dagInit rm rd rc)).name p.1 p.2) } :=
  createAnalysisJobs_fold inputs (generationJobOf inputs (dagInit rm rd rc))
    (analysisJobsInputs inputs.detectors inputs.coherenceTest inputs.sampler) _ rfl

/-- Claim C2: in every graph produced by `Dag` construction there is exactly
one Generation node, the Generation node has no parents, every Analysis
node's parent set is exactly the singleton containing the Generation node's
name, and the resulting name-edge graph is acyclic. -/
theorem c2_dag_structure (inputs : DagInputs) (rm rd rc : PyVal) (s : DagState)
    (h : buildDag inputs rm rd rc = Except.ok s) :
    (s.nodes.filter (fun j => j.executable == generationExecutable)).length = 1 ∧
    (∃ gen : Job, s.generation_job = some gen ∧ gen ∈ s.nodes ∧
      gen.executable = generationExecutable ∧ gen.parents = [] ∧
      ∀ j ∈ s.nodes, j.executable = analysisExecutable → j.parents = [gen.name]) ∧
    (∀ j ∈ s.nodes, j.executable = generationExecutable ∨ j.executable = analysisExecutable) ∧
    Acyclic (dagNameEdges s) := by
  rw [buildDag_eq] at h
  have hs := Except.ok.inj h
  subst hs
  refine ⟨?_, ⟨generationJobOf inputs (dagInit rm rd rc), rfl, List.mem_cons_self _ _,
    rfl, rfl, ?_⟩, ?_, ?_⟩
  · have hnil : (List.filter (fun j => j.executable == generationExecutable)
        ((analysisJobsInputs inputs.detectors inputs.coherenceTest inputs.sampler).map
          (fun p => analysisJobOf inputs (dagInit rm rd rc)
            (generationJobOf inputs (dagInit rm rd rc)).name p.1 p.2))) = [] := by
      apply List.filter_eq_nil_iff.mpr
      intro j hj
      rcases List.mem_map.mp hj with ⟨p, _, rfl⟩
      simp [analysisJobOf, analysisExecutable, generationExecutable]
    show (List.filter _ (_ :: _)).length = 1
    rw [List.filter_cons_of_pos (by rfl), hnil]
    rfl
  · intro j hj hex
    rcases List.mem_cons.mp hj with rfl | hj2
    · exact absurd hex (by simp [generationJobOf, analysisExecutable, generationExecutable])
    · rcases List.mem_map.mp hj2 with ⟨p, _, rfl⟩
      rfl
  · intro j hj
    rcases List.mem_cons.mp hj with rfl | hj2
    · exact Or.inl rfl
    · rcases List.mem_map.mp hj2 with ⟨p, _, rfl⟩
      exact Or.inr rfl
  · apply star_acyclic (g := (generationJobOf inputs (dagInit rm rd rc)).name)
    · intro e he
      simp only [dagNameEdges, List.mem_flatMap] at he
      rcases he with ⟨j, hj, he2⟩
      rcases List.mem_cons.mp hj with rfl | hj2
      · simp [generationJobOf] at he2
      · rcases List.mem_map.mp hj2 with ⟨p, _, rfl⟩
        simp only [analysisJobOf, List.map_cons, List.map_nil, List.mem_singleton] at he2
        subst he2
        rfl
    · intro e he
      simp only [dagNameEdges, List.mem_flatMap] at he
      rcases he with ⟨j, hj, he2⟩
      rcases List.mem_cons.mp hj with rfl | hj2
      · simp [generationJobOf] at he2
      · rcases List.mem_map.mp hj2 with ⟨p, _, rfl⟩
        simp only [analysisJobOf, List.map_cons, List.map_nil, List.mem_singleton] at he2
        subst he2
        show runLabel inputs p.1 p.2 ≠ (generationJobOf inputs (dagInit rm rd rc)).name
        simp only [runLabel, generationJobOf]
        exact run_label_ne_generation inputs.label (String.join p.1) p.2

/-- Witness for C2: the hypotheses of `c2_dag_structure` hold at the
concrete run `buildDag testInputs PyVal.none PyVal.none PyVal.none`, whose
result is the concrete state `testDagState`. -/
theorem c2_witness :
    (testDagState.nodes.filter (fun j => j.executable == generationExecutable)).length = 1 ∧
    (∃ gen : Job, testDagState.generation_job = some gen ∧ gen ∈ testDagState.nodes ∧
      gen.executable = generationExecutable ∧ gen.parents = [] ∧
      ∀ j ∈ testDagState.nodes, j.executable = analysisExecutable → j.parents = [gen.name]) ∧
    (∀ j ∈ testDagState.nodes,
      j.executable = generationExecutable ∨ j.executable = analysisExecutable) ∧
    Acyclic (dagNameEdges testDagState) :=
  c2_dag_structure testInputs PyVal.none PyVal.none PyVal.none testDagState rfl

/-- Claim C1: with a sampler list of m strings and k distinct detectors,
`Dag.analysis_jobs_inputs` enumerates exactly m pairs when the coherence
test is off and exactly m * (k + 1) pairs when it is on, detector subsets
outer (the full list first, then one singleton per detector in order) and
samplers inner. -/
theorem c1_analysis_job_enumeration (dets samplers : List String) (k m : Nat)
    (hk : dets.length = k) (hnd : dets.Nodup) (hm : samplers.length = m) :
    (analysisJobsInputs dets false (SamplerInput.list samplers)).length = m ∧
    (analysisJobsInputs dets true (SamplerInput.list samplers)).length = m * (k + 1) ∧
    analysisJobsInputs dets false (SamplerInput.list samplers)
      = samplers.map (fun sa => (dets, sa)) ∧
    analysisJobsInputs dets true (SamplerInput.list samplers)
      = ([dets] ++ dets.map (fun d => [d])).flatMap
          (fun ds => samplers.map (fun sa => (ds, sa))) := by
  refine ⟨?_, ?_, ?_, ?_⟩
  · simp [analysisJobsInputs, detectorsList, samplerElements, hm]
  · have hlen := length_flatMap_const (detectorsList dets true)
      (fun ds => samplers.map (fun sa => (ds, sa))) m
      (fun ds _ => by simp [hm])
    have hdl : (detectorsList dets true).length = k + 1 := by
      simp [detectorsList, hk, Nat.add_comm]
    rw [analysisJobsInputs, samplerElements, hlen, hdl, Nat.mul_comm]
  · simp [analysisJobsInputs, detectorsList, samplerElements]
  · simp [analysisJobsInputs, detectorsList, samplerElements]

/-- Witness for C1 at detectors H1 L1 (k = 2, no duplicates) and the
one-element sampler list containing nestle (m = 1). -/
theorem c1_witness :
    (analysisJobsInputs ["H1", "L1"] false (SamplerInput.list ["nestle"])).length = 1 ∧
    (analysisJobsInputs ["H1", "L1"] true (SamplerInput.list ["nestle"])).length = 1 * (2 + 1) ∧
    analysisJobsInputs ["H1", "L1"] false (SamplerInput.list ["nestle"])
      = (["nestle"] : List String).map (fun sa => ((["H1", "L1"] : List String), sa)) ∧
    analysisJobsInputs ["H1", "L1"] true (SamplerInput.list ["nestle"])
      = ([["H1", "L1"]] ++ (["H1", "L1"] : List String).map (fun d => [d])).flatMap
          (fun ds => (["nestle"] : List String).map (fun sa => (ds, sa))) :=
  c1_analysis_job_enumeration ["H1", "L1"] ["nestle"] 2 1 rfl (by decide) rfl

/-- Claim C9: when `Input.sampler` is the bare string that the parser
default produces, `Dag.analysis_jobs_inputs` iterates over the string's
characters, producing one pair per character of `dynesty` (7 of them) per
detector subset, each with a one-character sampler string. -/
theorem c9_default_sampler_iterates_characters (dets : List String) (coh : Bool) :
    analysisJobsInputs dets coh parserDefaultSampler
      = (detectorsList dets coh).flatMap
          (fun ds => "dynesty".data.map (fun c => (ds, String.singleton c))) ∧
    (analysisJobsInputs dets coh parserDefaultSampler).length
      = (detectorsList dets coh).length * 7 ∧
    ∀ p ∈ analysisJobsInputs dets coh parserDefaultSampler, p.2.length = 1 := by
  refine ⟨?_, ?_, ?_⟩
  · simp [analysisJobsInputs, parserDefaultSampler, samplerElements]
  · exact length_flatMap_const (detectorsList dets coh) _ 7 (fun ds _ => by
      simp [parserDefaultSampler, samplerElements])
  · intro p hp
    simp only [analysisJobsInputs, List.mem_flatMap, List.mem_map] at hp
    rcases hp with ⟨ds, _, sa, hsa, rfl⟩
    simp only [parserDefaultSampler, samplerElements, List.mem_map] at hsa
    rcases hsa with ⟨c, _, rfl⟩
    rfl

lemma convert_list_of_known (out : List String)
    (hval : ∀ d ∈ out, d ∈ knownDetectorsDefault) :
    convertDetectorsInput (DetectorsInput.list out) = pySort out := by
  match out with
  | [] => rfl
  | [d] =>
      have hd := hval d (List.mem_cons_self d [])
      simp only [knownDetectorsDefault, List.mem_cons, List.mem_singleton,
        List.not_mem_nil, or_false] at hd
      rcases hd with rfl | rfl | rfl <;> decide
  | a :: b :: t =>
      show (pySort (a :: b :: t)).map upperStr = pySort (a :: b :: t)
      exact map_upperStr_of_known (fun d hd => hval d (mem_pySort hd))

/-- Counterexample to claim C3: the code neither removes duplicates nor
sorts the uppercased tokens.  On the duplicate list the code returns both
copies, and on a mixed-case list the code sorts before uppercasing, so the
result is not in lexicographic order. -/
theorem c3_counterexample :
    convertDetectorsInput (DetectorsInput.list ["H1", "H1"]) = ["H1", "H1"] ∧
    specNormalize (detTokens (DetectorsInput.list ["H1", "H1"])) = ["H1"] ∧
    convertDetectorsInput (DetectorsInput.list ["H1", "H1"])
      ≠ specNormalize (detTokens (DetectorsInput.list ["H1", "H1"])) ∧
    convertDetectorsInput (DetectorsInput.list ["h1", "L1"]) = ["L1", "H1"] ∧
    specNormalize (detTokens (DetectorsInput.list ["h1", "L1"])) = ["H1", "L1"] := by
  refine ⟨by decide, by decide, by decide, by decide, by decide⟩

/-- Claim C3 as amended: the returned sequence is the token list sorted
lexicographically in its original (pre-uppercase) form and then uppercased;
exact duplicates are preserved, not removed.  The particular example
`normalize(["H1", "L1"]) = ["H1", "L1"]` does hold. -/
theorem c3_detector_normalization (input : DetectorsInput) :
    convertDetectorsInput input = (pySort (detTokens input)).map upperStr ∧
    (convertDetectorsInput input).Perm ((detTokens input).map upperStr) ∧
    convertDetectorsInput (DetectorsInput.list ["H1", "L1"]) = ["H1", "L1"] := by
  refine ⟨rfl, ?_, by decide⟩
  exact List.Perm.map upperStr (pySort_perm (detTokens input))

/-- Counterexample to claim C6: a valid mixed-case input (its normalized
tokens are the known detectors L1 and H1) on which normalization is not
idempotent, because the code sorts before uppercasing. -/
theorem c6_counterexample :
    (∀ d ∈ convertDetectorsInput (DetectorsInput.list ["h1", "L1"]),
      d ∈ knownDetectorsDefault) ∧
    convertDetectorsInput
        (DetectorsInput.list (convertDetectorsInput (DetectorsInput.list ["h1", "L1"])))
      ≠ convertDetectorsInput (DetectorsInput.list ["h1", "L1"]) := by
  refine ⟨by decide, by decide⟩

/-- Claim C6 as amended: on every valid input x (all normalized tokens are
known detectors), applying normalization to the normalized output returns
that output re-sorted; idempotence therefore holds exactly when the
normalized output is already sorted, for example when the input tokens are
already uppercase. -/
theorem c6_idempotence_amended (x : DetectorsInput)
    (hval : ∀ d ∈ convertDetectorsInput x, d ∈ knownDetectorsDefault) :
    convertDetectorsInput (DetectorsInput.list (convertDetectorsInput x))
      = pySort (convertDetectorsInput x) :=
  convert_list_of_known (convertDetectorsInput x) hval

/-- Witness for C6: the hypothesis of `c6_idempotence_amended` holds at the
concrete valid input list containing h1 and L1. -/
theorem c6_witness :
    convertDetectorsInput
        (DetectorsInput.list (convertDetectorsInput (DetectorsInput.list ["h1", "L1"])))
      = pySort (convertDetectorsInput (DetectorsInput.list ["h1", "L1"])) :=
  c6_idempotence_amended (DetectorsInput.list ["h1", "L1"]) (by decide)

/-- Counterexample to claim C7: an input whose normalization yields the
empty list is accepted by the detectors setter with no error of any kind
(the code defines no `EmptySetError`). -/
theorem c7_counterexample :
    setDetectors (DetectorsInput.list []) knownDetectorsDefault = Except.ok [] := rfl

/-- Claim C7 as amended: an input normalizing to an empty detector list is
accepted against any known-detector list, the detectors attribute is set to
the empty list, and DAG construction then proceeds and builds jobs rather
than failing first. -/
theorem c7_empty_detectors_accepted (known : List String) :
    setDetectors (DetectorsInput.list []) known = Except.ok [] ∧
    convertDetectorsInput (DetectorsInput.list []) = [] ∧
    (buildDag { testInputs with detectors := [] }
        PyVal.none PyVal.none PyVal.none).isOk = true := by
  refine ⟨rfl, rfl, rfl⟩

/-- Counterexample to claim C4: with no explicit path, the environment
variable set, and the referenced file missing, resolution warns and does
not raise, but the `_x509userproxy` attribute is left unassigned, so a
later read raises `ValueError` instead of returning `None`. -/
theorem c4_counterexample :
    x509Setter Option.none (some "/home/albert/cert") (fun _ => false) "/outdir"
      = Except.ok (Option.none, [CredWarning.proxyEnvNotAFile]) ∧
    x509Getter Option.none = Except.error PyError.valueError ∧
    (Except.error PyError.valueError : Except PyError (Option String))
      ≠ Except.ok Option.none :=
  ⟨rfl, rfl, fun hcontra => Except.noConfusion hcontra⟩

/-- Claim C4 as amended: with no explicit path, an unset environment
variable yields a warning, no exception, and every later read returns
`None`; an environment variable set to a missing file yields a warning and
no exception at resolution time, but leaves the attribute unassigned, so
every later read raises `ValueError`. -/
theorem c4_credential_fallback (p outdir : String) (fe : String → Bool)
    (h : fe p = false) :
    (x509Setter Option.none Option.none fe outdir
        = Except.ok (some Option.none, [CredWarning.proxyEnvUnset]) ∧
      x509Getter (some Option.none) = Except.ok Option.none) ∧
    (x509Setter Option.none (some p) fe outdir
        = Except.ok (Option.none, [CredWarning.proxyEnvNotAFile]) ∧
      x509Getter Option.none = Except.error PyError.valueError) := by
  refine ⟨⟨rfl, rfl⟩, ⟨?_, rfl⟩⟩
  simp [x509Setter, h]

/-- Witness for C4: the hypothesis of `c4_credential_fallback` holds at a
concrete missing path with a file system in which no file exists. -/
theorem c4_witness :
    (x509Setter Option.none Option.none (fun _ => false) "/outdir"
        = Except.ok (some Option.none, [CredWarning.proxyEnvUnset]) ∧
      x509Getter (some Option.none) = Except.ok Option.none) ∧
    (x509Setter Option.none (some "/home/albert/missing") (fun _ => false) "/outdir"
        = Except.ok (Option.none, [CredWarning.proxyEnvNotAFile]) ∧
      x509Getter Option.none = Except.error PyError.valueError) :=
  c4_credential_fallback "/home/albert/missing" "/outdir" (fun _ => false) rfl

/-- Counterexample to claim C5: adding a second Generation job to a graph
that already has one does not fail at all (let alone with a
`GraphConstructionError`, which the code does not define); it returns a
state holding two generation jobs. -/
theorem c5_counterexample :
    (createGenerationJob testInputs (dagInit PyVal.none PyVal.none PyVal.none)).bind
        (fun s => createGenerationJob testInputs s)
      = Except.ok
          { request_memory := PyVal.none
            request_disk := PyVal.none
            request_cpus := PyVal.none
            generation_job := some testGenJob
            nodes := [testGenJob, testGenJob] } ∧
    genNodeCount ((createGenerationJob testInputs (dagInit PyVal.none PyVal.none PyVal.none)).bind
        (fun s => createGenerationJob testInputs s)) = some 2 :=
  ⟨rfl, rfl⟩

/-- Claim C5 as amended: adding an Analysis job before the Generation job
exists fails, but with `AttributeError` (reading the unassigned
`self.generation_job`), not with a `GraphConstructionError`, which the code
does not define; and adding a second Generation job is not rejected: it
succeeds and leaves two generation nodes in the graph. -/
theorem c5_graph_construction (inputs : DagInputs) (dets : List String) (sa : String)
    (rm rd rc : PyVal) (s1 : DagState)
    (h : createGenerationJob inputs (dagInit rm rd rc) = Except.ok s1) :
    createAnalysisJob inputs dets sa (dagInit rm rd rc)
      = Except.error PyError.attributeError ∧
    genNodeCount (createGenerationJob inputs s1) = some 2 := by
  constructor
  · rfl
  · have hs := Except.ok.inj h
    subst hs
    simp [genNodeCount, createGenerationJob, Except.toOption, List.filter,
      generationJobOf, generationExecutable]

/-- Witness for C5: the hypothesis of `c5_graph_construction` holds at the
concrete inputs, where `createGenerationJob` on the fresh state returns the
concrete state `testDagStateGen`. -/
theorem c5_witness :
    createAnalysisJob testInputs ["H1"] "dynesty" (dagInit PyVal.none PyVal.none PyVal.none)
      = Except.error PyError.attributeError ∧
    genNodeCount (createGenerationJob testInputs testDagStateGen) = some 2 :=
  c5_graph_construction testInputs ["H1"] "dynesty" PyVal.none PyVal.none PyVal.none
    testDagStateGen rfl

/-- Claim C8 at the failing input: the `Dag` constructor stores the
`request_disk` argument into `self.request_cpus` (main.py line 341), so
with memory 1GB, disk 2GB and cpus 4 every emitted job carries memory 1GB
and disk 2GB as claimed, but carries the string 2GB as its cpu request
instead of the integer 4. -/
theorem c8_request_cpus_overwritten :
    jobResources (buildDag testInputs (PyVal.str "1GB") (PyVal.str "2GB") (PyVal.int 4))
      = some [(PyVal.str "1GB", PyVal.str "2GB", PyVal.str "2GB"),
              (PyVal.str "1GB", PyVal.str "2GB", PyVal.str "2GB")] ∧
    (dagInit (PyVal.str "1GB") (PyVal.str "2GB") (PyVal.int 4)).request_cpus
      = PyVal.str "2GB" ∧
    (dagInit (PyVal.str "1GB") (PyVal.str "2GB") (PyVal.int 4)).request_cpus
      ≠ PyVal.int 4 :=
  ⟨rfl, rfl, fun hcontra => PyVal.noConfusion hcontra⟩

/-- Claim C10: a non-`None` `args.n_injection` overwrites the queue value,
a `None` one leaves the user queue in place, and since the setter never
assigns `_n_injection`, reading `MainInput.n_injection` always raises
`AttributeError`. -/
theorem c10_n_injection (q : Int) (v : Option Int) :
    (∀ n : Int, v = some n → (mainInputQueueState q v).queue = n) ∧
    (v = Option.none → (mainInputQueueState q v).queue = q) ∧
    getNInjection (mainInputQueueState q v) = Except.error PyError.attributeError := by
  refine ⟨?_, ?_, ?_⟩
  · intro n hn
    subst hn
    rfl
  · intro hn
    subst hn
    rfl
  · cases v <;> rfl

/-- Witness for C10: the hypotheses of `c10_n_injection` are discharged at
the concrete argument pairs (queue 5, n_injection 3) and (queue 7,
n_injection None). -/
theorem c10_witness :
    (mainInputQueueState 5 (some 3)).queue = 3 ∧
    (mainInputQueueState 7 Option.none).queue = 7 ∧
    getNInjection (mainInputQueueState 5 (some 3)) = Except.error PyError.attributeError :=
  ⟨(c10_n_injection 5 (some 3)).1 3 rfl,
   (c10_n_injection 7 Option.none).2.1 rfl,
   (c10_n_injection 5 (some 3)).2.2⟩
